import Mathlib

/-!
# ibm-platform-fru-detect: the Everest entry points and the Rainier declarations

A shallow embedding of

* `src/platforms/everest/everest.cpp` (`Everest::enrollWith`, `Everest::detectFrus`), and
* `src/platforms/rainier.hpp` (the class declarations of the Rainier device tree and
  their `constexpr` tables),

followed by the properties established about them.

`everest.cpp` only calls into collaborators (the root device `Tola`, the `Notifier`, the
`PlatformManager`).  The collaborators are parameters of the embedding and act on a
collaborator state `σ`.  Every call that crosses that boundary is recorded when it is
issued and again when it ends.  A call that `detectFrus` makes may return, may leave by an
exception, or may never return; `everest.cpp` has no `try`, `catch` or `throw`, so an
exception leaves `detectFrus` as well, after the local `tola` has been destroyed, and the
statements that follow the call are not reached.

`rainier.hpp` only declares.  Its classes are embedded as a table of declarations
(`rainierClasses`), its `constexpr` initialisers as lists, and the questions asked of them
(who holds which connector, which definition a virtual call reaches, which default an
omitted argument takes) as functions over that table.
-/

namespace FruDetect

/-! ## Unplug mode -/

/-- Modelled from the spec: the enumerators `Device::UNPLUG_REMOVES_INVENTORY` and
`Device::UNPLUG_RETAINS_INVENTORY`, declared in `platform.hpp`, which is not among the
sources at hand.  The spec gives the unplug mode two variants, `RemovesInventory` and
`RetainsInventory`. -/
inductive UnplugMode where
  | RemovesInventory
  | RetainsInventory
  deriving DecidableEq, Repr

/-- The enumerator `Device::UNPLUG_REMOVES_INVENTORY`. -/
def Device.UNPLUG_REMOVES_INVENTORY : UnplugMode := UnplugMode.RemovesInventory

/-- The enumerator `Device::UNPLUG_RETAINS_INVENTORY`. -/
def Device.UNPLUG_RETAINS_INVENTORY : UnplugMode := UnplugMode.RetainsInventory

/-! ## Calls made by `everest.cpp` -/

section Everest

variable {σ N I D M P : Type}

/-- The calls `everest.cpp` makes into code outside of it.  `N` are the notifiers
(`Notifier&`), `I` the inventories (`Inventory*`), `D` the root devices (`Tola`), `M` the
platform managers (`PlatformManager&`), `P` the platform objects (`Platform*`). -/
inductive Call (N I D M P : Type) where
  /-- The declaration `Tola tola(inventory)`. -/
  | tolaCtor (inventory : I)
  /-- The call `dev.plug(notifier)`. -/
  | plug (dev : D) (notifier : N)
  /-- The call `notifier.run()`. -/
  | run (notifier : N)
  /-- The call `dev.unplug(notifier, mode)`. -/
  | unplug (dev : D) (notifier : N) (mode : UnplugMode)
  /-- The call `pm.enrollPlatform(name, platform)`. -/
  | enrollPlatform (pm : M) (name : String) (platform : P)
  /-- The destruction of the local `dev` where its scope ends. -/
  | tolaDtor (dev : D)
  deriving DecidableEq, Repr

/-- The lifecycle calls: `plug`, `run` and `unplug`. -/
def Call.isLifecycle : Call N I D M P → Bool
  | Call.plug _ _ => true
  | Call.run _ => true
  | Call.unplug _ _ _ => true
  | _ => false

/-- The `unplug` calls. -/
def Call.isUnplug : Call N I D M P → Bool
  | Call.unplug _ _ _ => true
  | _ => false

/-- What is observed at the boundary: a call being issued; a call having returned,
together with the collaborator state it left behind; a call having been left by an
exception, together with the state it left behind.  A call that never returns leaves
nothing after its `call`. -/
inductive Event (σ N I D M P : Type) where
  | call (c : Call N I D M P)
  | ret (c : Call N I D M P) (after : σ)
  | threw (c : Call N I D M P) (after : σ)
  deriving DecidableEq, Repr

/-- The calls issued in a trace, in order. -/
def issued : List (Event σ N I D M P) → List (Call N I D M P)
  | [] => []
  | Event.call c :: es => c :: issued es
  | Event.ret _ _ :: es => issued es
  | Event.threw _ _ :: es => issued es

/-- How a call into a collaborator ends: it returns a value and leaves a state, it throws
and leaves a state, or it never returns (it blocks for good, or ends the process). -/
inductive Outcome (α σ : Type) where
  | returns (value : α) (after : σ)
  | throws (after : σ)
  | noReturn
  deriving DecidableEq, Repr

/-- The collaborators of `everest.cpp`, none of which is defined in it. -/
structure Collaborators (σ N I D M P : Type) where
  /-- The constructor `Tola::Tola(Inventory*)`; yields the constructed root device. -/
  tolaCtor : I → σ → Outcome D σ
  /-- The destructor `Tola::~Tola()`. -/
  tolaDtor : D → σ → Outcome Unit σ
  /-- The method `Tola::plug(Notifier&)`. -/
  plug : D → N → σ → Outcome Unit σ
  /-- The method `Notifier::run()`. -/
  run : N → σ → Outcome Unit σ
  /-- The method `Tola::unplug(Notifier&, int)`. -/
  unplug : D → N → UnplugMode → σ → Outcome Unit σ
  /-- The method `PlatformManager::enrollPlatform(name, Platform*)`. -/
  enrollPlatform : M → String → P → σ → σ

/-- The collaborator state together with the trace of boundary events so far. -/
abbrev World (σ N I D M P : Type) := σ × List (Event σ N I D M P)

/-- Issue the call `c`, let the collaborator `f` run to completion, record its return. -/
def perform {α : Type} (c : Call N I D M P) (f : σ → α × σ) :
    StateM (World σ N I D M P) α :=
  fun w =>
    let r := f w.1
    (r.1, (r.2, w.2 ++ [Event.call c, Event.ret c r.2]))

/-- A collaborator that returns nothing. -/
def effect (f : σ → σ) : σ → Unit × σ := fun s => ((), f s)

/-- The function `void Everest::enrollWith(PlatformManager& pm)`; `this` is the receiving
object. -/
def Everest.enrollWith (c : Collaborators σ N I D M P) (this : P) (pm : M) :
    StateM (World σ N I D M P) Unit :=
  perform (Call.enrollPlatform pm "Everest" this) (effect (c.enrollPlatform pm "Everest" this))

/-- How a piece of code is left: by reaching its end, by an exception that nothing in it
catches, or not at all. -/
inductive Exit (α : Type) where
  | returned (value : α)
  | threw
  | noReturn
  deriving DecidableEq, Repr

/-- A piece of code that calls collaborators: from a world it reaches a world, and is
left in one of the three ways. -/
def Prog (σ N I D M P α : Type) : Type :=
  World σ N I D M P → Exit α × World σ N I D M P

/-- Sequencing: the second statement runs only when the first has been left by reaching
its end. -/
def Prog.andThen {α β : Type} (p : Prog σ N I D M P α) (q : α → Prog σ N I D M P β) :
    Prog σ N I D M P β :=
  fun w =>
    match p w with
    | (Exit.returned a, w1) => q a w1
    | (Exit.threw, w1) => (Exit.threw, w1)
    | (Exit.noReturn, w1) => (Exit.noReturn, w1)

instance : Monad (Prog σ N I D M P) where
  pure := fun a w => (Exit.returned a, w)
  bind := Prog.andThen

/-- Issue the call `c` and record how the collaborator `f` ends it. -/
def attempt {α : Type} (c : Call N I D M P) (f : σ → Outcome α σ) : Prog σ N I D M P α :=
  fun w =>
    match f w.1 with
    | Outcome.returns a s => (Exit.returned a, (s, w.2 ++ [Event.call c, Event.ret c s]))
    | Outcome.throws s => (Exit.threw, (s, w.2 ++ [Event.call c, Event.threw c s]))
    | Outcome.noReturn => (Exit.noReturn, (w.1, w.2 ++ [Event.call c]))

/-- The scope of a local object: `body` runs, and the destructor `dtor` of the local runs
when `body` is left by reaching its end and when it is left by an exception, which then
goes on to the caller.  A destructor is `noexcept`: one that does not return ends the
process.  When `body` never returns, neither does the scope. -/
def withLocal {α : Type} (dtor : Prog σ N I D M P Unit) (body : Prog σ N I D M P α) :
    Prog σ N I D M P α :=
  fun w =>
    match body w with
    | (Exit.returned a, w1) =>
      match dtor w1 with
      | (Exit.returned _, w2) => (Exit.returned a, w2)
      | (_, w2) => (Exit.noReturn, w2)
    | (Exit.threw, w1) =>
      match dtor w1 with
      | (Exit.returned _, w2) => (Exit.threw, w2)
      | (_, w2) => (Exit.noReturn, w2)
    | (Exit.noReturn, w1) => (Exit.noReturn, w1)

/-- The function `void Everest::detectFrus(Notifier& notifier, Inventory* inventory)`. -/
def Everest.detectFrus (c : Collaborators σ N I D M P) (notifier : N) (inventory : I) :
    Prog σ N I D M P Unit := do
  let tola ← attempt (Call.tolaCtor inventory) (c.tolaCtor inventory)
  withLocal (attempt (Call.tolaDtor tola) (c.tolaDtor tola)) do
    /- Cold-plug devices -/
    attempt (Call.plug tola notifier) (c.plug tola notifier)
    /- Hot-plug devices -/
    attempt (Call.run notifier) (c.run notifier)
    /- Clean up the application state but leave the inventory in-tact. -/
    attempt (Call.unplug tola notifier Device.UNPLUG_RETAINS_INVENTORY)
      (c.unplug tola notifier Device.UNPLUG_RETAINS_INVENTORY)

/-- How one `detectFrus` is left. -/
def Everest.detectFrusExit (c : Collaborators σ N I D M P) (notifier : N) (inventory : I)
    (s : σ) : Exit Unit :=
  (Everest.detectFrus c notifier inventory (s, [])).1

/-- The collaborator state `detectFrus` leaves behind. -/
def Everest.detectFrusState (c : Collaborators σ N I D M P) (notifier : N) (inventory : I)
    (s : σ) : σ :=
  (Everest.detectFrus c notifier inventory (s, [])).2.1

/-- The boundary events of one `detectFrus`. -/
def Everest.detectFrusTrace (c : Collaborators σ N I D M P) (notifier : N) (inventory : I)
    (s : σ) : List (Event σ N I D M P) :=
  (Everest.detectFrus c notifier inventory (s, [])).2.2

/-- The boundary events of one `enrollWith`. -/
def Everest.enrollWithTrace (c : Collaborators σ N I D M P) (this : P) (pm : M)
    (s : σ) : List (Event σ N I D M P) :=
  ((Everest.enrollWith c this pm).run (s, [])).2.2

end Everest

/-- Collaborators whose calls all return, to run the entry points on.  The state is the
list of inventory paths: `plug` records the root device, `run` records a drive that is
hot-plugged, `unplug` deletes the records unless it is told to retain them, and the
destruction of the root device leaves the inventory alone. -/
def exampleCollaborators : Collaborators (List String) Nat Nat Nat Nat Nat where
  tolaCtor := fun inventory s => Outcome.returns (inventory + 100) s
  tolaDtor := fun _ s => Outcome.returns () s
  plug := fun _ _ s => Outcome.returns () (s ++ ["/system/chassis/motherboard"])
  run := fun _ s => Outcome.returns () (s ++ ["/system/chassis/motherboard/drive0"])
  unplug := fun _ _ mode s =>
    match mode with
    | UnplugMode.RemovesInventory => Outcome.returns () []
    | UnplugMode.RetainsInventory => Outcome.returns () s
  enrollPlatform := fun _ _ _ s => s

/-- As `exampleCollaborators`, but an `unplug` that retains the inventory also writes a
record of its own: it removes nothing and adds a path. -/
def unplugAddsCollaborators : Collaborators (List String) Nat Nat Nat Nat Nat :=
  { exampleCollaborators with
    unplug := fun _ _ mode s =>
      match mode with
      | UnplugMode.RemovesInventory => Outcome.returns () []
      | UnplugMode.RetainsInventory => Outcome.returns () (s ++ ["/system/chassis/shutdown"]) }

/-- As `exampleCollaborators`, but the destruction of the root device deletes the
inventory records. -/
def dtorRemovesCollaborators : Collaborators (List String) Nat Nat Nat Nat Nat :=
  { exampleCollaborators with tolaDtor := fun _ _ => Outcome.returns () [] }

/-! ## The declarations of `rainier.hpp` -/

/-- The classes named in `rainier.hpp`.  The first five are base classes declared in
headers it includes (`platform.hpp`, `devices/nvme.hpp`); the other ten are declared in
`rainier.hpp` itself. -/
inductive ClassName where
  | Device | FRU | Platform | NVMeDrive | BasicNVMeDrive
  | FlettNVMeDrive | Flett | WilliwakasNVMeDrive | Williwakas
  | Nisqually | Nisqually0z | Nisqually1z | Ingraham | Rainier0z | Rainier1z
  deriving DecidableEq, Repr, Fintype

/-- The types that occur in the member declarations of `rainier.hpp`. -/
inductive Ty where
  | void | bool | int | string | constStringRef | constCharPtr | sysfsI2CBus
  | notifierRef | platformManagerRef | inventoryPtr
  /-- The pointer type `C*`. -/
  | ptr (c : ClassName)
  /-- The pointer type `const C*`. -/
  | constPtr (c : ClassName)
  | gpiodChip | gpiodLine
  /-- The type `Connector<C>`. -/
  | connector (c : ClassName)
  /-- The type `PolledDevicePresence<C>`. -/
  | polledDevicePresence (c : ClassName)
  /-- The type `std::array<T, n>`. -/
  | array (elem : Ty) (n : Nat)
  /-- The type `std::map<K, V>`. -/
  | map (key value : Ty)
  deriving DecidableEq, Repr

/-- A default argument as written: an enumerator name, qualified (`Device::NAME`) or not. -/
structure DefaultArg where
  qualifier : Option ClassName
  enumerator : String
  deriving DecidableEq, Repr

/-- A function parameter. -/
structure Param where
  ty : Ty
  name : String
  default : Option DefaultArg := none
  deriving DecidableEq, Repr

inductive Access where
  | isPublic | isProtected | isPrivate
  deriving DecidableEq, Repr

/-- How a member function is declared: plainly, `static`, `virtual ... = 0`, or
`... override`. -/
inductive MethodKind where
  | plain | static | pureVirtual | override
  deriving DecidableEq, Repr

/-- A member function declaration (constructors, destructors and assignment operators
are kept apart, see `ClassDecl`). -/
structure Method where
  access : Access
  kind : MethodKind
  ret : Ty
  name : String
  params : List Param
  isConst : Bool := false
  deriving DecidableEq, Repr

/-- A data member declaration; `isStatic` marks the `static constexpr` ones. -/
structure Field where
  access : Access
  ty : Ty
  name : String
  isStatic : Bool := false
  deriving DecidableEq, Repr

/-- A class declaration.  The special member functions are kept apart from `methods`:
`ctor` holds the parameters of the one user-callable constructor (`none` when it is
`C() = default`), `defaultedDtor` says that the class declares `~C() override = default`,
and `deletedCopyMove` that it deletes its copy and move constructors and assignments. -/
structure ClassDecl where
  name : ClassName
  bases : List ClassName
  ctor : Option (List Param)
  defaultedDtor : Bool := true
  deletedCopyMove : Bool := true
  methods : List Method
  fields : List Field
  deriving DecidableEq, Repr

/-- The parameter list `(Notifier& notifier)`. -/
def notifierParam : List Param := [{ ty := Ty.notifierRef, name := "notifier" }]

/-- The declaration `void plug(Notifier& notifier) override;` -/
def plugDecl : Method :=
  { access := Access.isPublic, kind := MethodKind.override, ret := Ty.void, name := "plug",
    params := notifierParam }

/-- The declaration `void unplug(Notifier& notifier, int mode = d) override;` -/
def unplugDecl (d : DefaultArg) : Method :=
  { access := Access.isPublic, kind := MethodKind.override, ret := Ty.void, name := "unplug",
    params := notifierParam ++ [{ ty := Ty.int, name := "mode", default := some d }] }

/-- The declaration `std::string getInventoryPath() const override;` -/
def getInventoryPathDecl : Method :=
  { access := Access.isPublic, kind := MethodKind.override, ret := Ty.string,
    name := "getInventoryPath", params := [], isConst := true }

/-- The declaration `void addToInventory(Inventory* inventory) override;` -/
def addToInventoryDecl : Method :=
  { access := Access.isPublic, kind := MethodKind.override, ret := Ty.void,
    name := "addToInventory", params := [{ ty := Ty.inventoryPtr, name := "inventory" }] }

/-- The declaration `void removeFromInventory(Inventory* inventory) override;` -/
def removeFromInventoryDecl : Method :=
  { access := Access.isPublic, kind := MethodKind.override, ret := Ty.void,
    name := "removeFromInventory", params := [{ ty := Ty.inventoryPtr, name := "inventory" }] }

/-- The default written `UNPLUG_REMOVES_INVENTORY`. -/
def unqualifiedRemoves : DefaultArg :=
  { qualifier := none, enumerator := "UNPLUG_REMOVES_INVENTORY" }

/-- The default written `Device::UNPLUG_REMOVES_INVENTORY`. -/
def qualifiedRemoves : DefaultArg :=
  { qualifier := some ClassName.Device, enumerator := "UNPLUG_REMOVES_INVENTORY" }

/-- The private member `Inventory* inventory;` -/
def inventoryField (a : Access) : Field :=
  { access := a, ty := Ty.inventoryPtr, name := "inventory" }

/-- The declaration `class FlettNVMeDrive : public BasicNVMeDrive`. -/
def FlettNVMeDrive.decl : ClassDecl :=
  { name := ClassName.FlettNVMeDrive
    bases := [ClassName.BasicNVMeDrive]
    ctor := some [{ ty := Ty.inventoryPtr, name := "inventory" },
                  { ty := Ty.constPtr ClassName.Nisqually, name := "nisqually" },
                  { ty := Ty.constPtr ClassName.Flett, name := "flett" },
                  { ty := Ty.int, name := "index" }]
    methods :=
      [{ access := Access.isPublic, kind := MethodKind.static, ret := Ty.bool,
         name := "isPresent", params := [{ ty := Ty.sysfsI2CBus, name := "bus" }] },
       plugDecl,
       unplugDecl unqualifiedRemoves,
       getInventoryPathDecl,
       { access := Access.isPrivate, kind := MethodKind.plain, ret := Ty.void,
         name := "decorateWithI2CDevice", isConst := true,
         params := [{ ty := Ty.constStringRef, name := "path" },
                    { ty := Ty.inventoryPtr, name := "inventory" }] },
       { access := Access.isPrivate, kind := MethodKind.plain, ret := Ty.void,
         name := "decorateWithVINI", isConst := true,
         params := [{ ty := Ty.constStringRef, name := "path" },
                    { ty := Ty.inventoryPtr, name := "inventory" }] }]
    fields :=
      [{ access := Access.isPrivate, ty := Ty.constPtr ClassName.Nisqually, name := "nisqually" },
       { access := Access.isPrivate, ty := Ty.constPtr ClassName.Flett, name := "flett" }] }

/-- The declaration `class Flett : public Device`. -/
def Flett.decl : ClassDecl :=
  { name := ClassName.Flett
    bases := [ClassName.Device]
    ctor := some [{ ty := Ty.inventoryPtr, name := "inventory" },
                  { ty := Ty.constPtr ClassName.Nisqually, name := "nisqually" },
                  { ty := Ty.int, name := "slot" }]
    methods :=
      [{ access := Access.isPublic, kind := MethodKind.static, ret := Ty.string,
         name := "getInventoryPathFor",
         params := [{ ty := Ty.constPtr ClassName.Nisqually, name := "nisqually" },
                    { ty := Ty.int, name := "slot" }] },
       { access := Access.isPublic, kind := MethodKind.plain, ret := Ty.int,
         name := "getIndex", params := [], isConst := true },
       { access := Access.isPublic, kind := MethodKind.plain, ret := Ty.sysfsI2CBus,
         name := "getDriveBus", params := [{ ty := Ty.int, name := "index" }], isConst := true },
       plugDecl,
       unplugDecl qualifiedRemoves]
    fields :=
      [inventoryField Access.isPrivate,
       { access := Access.isPrivate, ty := Ty.constPtr ClassName.Nisqually, name := "nisqually" },
       { access := Access.isPrivate, ty := Ty.int, name := "slot" },
       { access := Access.isPrivate, name := "driveConnectors",
         ty := Ty.array (Ty.connector ClassName.FlettNVMeDrive) 8 },
       { access := Access.isPrivate, name := "presenceAdaptors",
         ty := Ty.array (Ty.polledDevicePresence ClassName.FlettNVMeDrive) 8 }] }

/-- The declaration `class WilliwakasNVMeDrive : public NVMeDrive`. -/
def WilliwakasNVMeDrive.decl : ClassDecl :=
  { name := ClassName.WilliwakasNVMeDrive
    bases := [ClassName.NVMeDrive]
    ctor := some [{ ty := Ty.inventoryPtr, name := "inventory" },
                  { ty := Ty.constPtr ClassName.Williwakas, name := "backplane" },
                  { ty := Ty.int, name := "index" }]
    methods :=
      [plugDecl,
       unplugDecl unqualifiedRemoves,
       getInventoryPathDecl,
       addToInventoryDecl,
       removeFromInventoryDecl]
    fields :=
      [{ access := Access.isPrivate, ty := Ty.constPtr ClassName.Williwakas,
         name := "williwakas" }] }

/-- The declaration `class Williwakas : public Device, FRU`. -/
def Williwakas.decl : ClassDecl :=
  { name := ClassName.Williwakas
    bases := [ClassName.Device, ClassName.FRU]
    ctor := some [{ ty := Ty.inventoryPtr, name := "inventory" },
                  { ty := Ty.constPtr ClassName.Nisqually, name := "backplane" },
                  { ty := Ty.int, name := "index" }]
    methods :=
      [{ access := Access.isPublic, kind := MethodKind.static, ret := Ty.string,
         name := "getInventoryPathFor",
         params := [{ ty := Ty.constPtr ClassName.Nisqually, name := "nisqually" },
                    { ty := Ty.int, name := "index" }] },
       { access := Access.isPublic, kind := MethodKind.plain, ret := Ty.int,
         name := "getIndex", params := [], isConst := true },
       plugDecl,
       unplugDecl qualifiedRemoves,
       getInventoryPathDecl,
       addToInventoryDecl,
       removeFromInventoryDecl,
       { access := Access.isPrivate, kind := MethodKind.plain, ret := Ty.bool,
         name := "isDrivePresent", params := [{ ty := Ty.int, name := "index" }] },
       { access := Access.isPrivate, kind := MethodKind.plain, ret := Ty.void,
         name := "detectDrives", params := notifierParam }]
    fields :=
      [{ access := Access.isPrivate, ty := Ty.int, name := "drivePresenceDeviceAddress",
         isStatic := true },
       { access := Access.isPrivate, ty := Ty.array Ty.constCharPtr 3,
         name := "driveBackplaneBus", isStatic := true },
       { access := Access.isPrivate, ty := Ty.array Ty.int 8, name := "drivePresenceMap",
         isStatic := true },
       inventoryField Access.isPrivate,
       { access := Access.isPrivate, ty := Ty.constPtr ClassName.Nisqually, name := "nisqually" },
       { access := Access.isPrivate, ty := Ty.int, name := "index" },
       { access := Access.isPrivate, ty := Ty.gpiodChip, name := "chip" },
       { access := Access.isPrivate, ty := Ty.array Ty.gpiodLine 8, name := "lines" },
       { access := Access.isPrivate, name := "driveConnectors",
         ty := Ty.array (Ty.connector ClassName.WilliwakasNVMeDrive) 8 },
       { access := Access.isPrivate, name := "presenceAdaptors",
         ty := Ty.array (Ty.polledDevicePresence ClassName.WilliwakasNVMeDrive) 8 }] }

/-- The declaration `virtual SysfsI2CBus getFlettSlotI2CBus(int slot) const`, pure in
`Nisqually` and an override in its two subclasses. -/
def getFlettSlotI2CBusDecl (k : MethodKind) : Method :=
  { access := Access.isPublic, kind := k, ret := Ty.sysfsI2CBus, name := "getFlettSlotI2CBus",
    params := [{ ty := Ty.int, name := "slot" }], isConst := true }

/-- The declaration `virtual bool isFlettPresentAt(int slot)`, pure in `Nisqually` and an
override in its two subclasses. -/
def isFlettPresentAtDecl (k : MethodKind) : Method :=
  { access := Access.isProtected, kind := k, ret := Ty.bool, name := "isFlettPresentAt",
    params := [{ ty := Ty.int, name := "slot" }] }

/-- The declaration `class Nisqually : public Device, FRU`. -/
def Nisqually.decl : ClassDecl :=
  { name := ClassName.Nisqually
    bases := [ClassName.Device, ClassName.FRU]
    ctor := some [{ ty := Ty.inventoryPtr, name := "inventory" }]
    methods :=
      [{ access := Access.isPublic, kind := MethodKind.static, ret := Ty.int,
         name := "getFlettIndex", params := [{ ty := Ty.int, name := "slot" }] },
       getFlettSlotI2CBusDecl MethodKind.pureVirtual,
       plugDecl,
       unplugDecl qualifiedRemoves,
       getInventoryPathDecl,
       addToInventoryDecl,
       removeFromInventoryDecl,
       isFlettPresentAtDecl MethodKind.pureVirtual,
       { access := Access.isPrivate, kind := MethodKind.plain, ret := Ty.void,
         name := "detectFlettCards", params := notifierParam },
       { access := Access.isPrivate, kind := MethodKind.plain, ret := Ty.bool,
         name := "isWilliwakasPresent", params := [{ ty := Ty.int, name := "index" }] },
       { access := Access.isPrivate, kind := MethodKind.plain, ret := Ty.void,
         name := "detectWilliwakasCards", params := notifierParam }]
    fields :=
      [inventoryField Access.isProtected,
       { access := Access.isPrivate, ty := Ty.constCharPtr,
         name := "williwakasPresenceDevicePath", isStatic := true },
       { access := Access.isPrivate, ty := Ty.array Ty.int 3, name := "williwakasPresenceMap",
         isStatic := true },
       { access := Access.isPrivate, name := "flettConnectors",
         ty := Ty.array (Ty.connector ClassName.Flett) 4 },
       { access := Access.isPrivate, ty := Ty.gpiodChip, name := "williwakasPresenceChip" },
       { access := Access.isPrivate, name := "williwakasConnectors",
         ty := Ty.array (Ty.connector ClassName.Williwakas) 3 },
       { access := Access.isPrivate, ty := Ty.array Ty.gpiodLine 3,
         name := "williwakasPresenceLines" }] }

/-- The declaration `class Nisqually0z : public Nisqually`. -/
def Nisqually0z.decl : ClassDecl :=
  { name := ClassName.Nisqually0z
    bases := [ClassName.Nisqually]
    ctor := some [{ ty := Ty.inventoryPtr, name := "inventory" }]
    methods :=
      [getFlettSlotI2CBusDecl MethodKind.override,
       isFlettPresentAtDecl MethodKind.override]
    fields := [] }

/-- The declaration `class Nisqually1z : public Nisqually`. -/
def Nisqually1z.decl : ClassDecl :=
  { name := ClassName.Nisqually1z
    bases := [ClassName.Nisqually]
    ctor := some [{ ty := Ty.inventoryPtr, name := "inventory" }]
    methods :=
      [getFlettSlotI2CBusDecl MethodKind.override,
       isFlettPresentAtDecl MethodKind.override]
    fields :=
      [{ access := Access.isPrivate, ty := Ty.int, name := "slotMuxAddress", isStatic := true },
       { access := Access.isPrivate, ty := Ty.constCharPtr, name := "flettPresenceDevicePath",
         isStatic := true },
       { access := Access.isPrivate, ty := Ty.gpiodChip, name := "flettPresenceChip" },
       { access := Access.isPrivate, ty := Ty.map Ty.int Ty.gpiodLine,
         name := "flettPresenceLines" }] }

/-- The declaration `class Ingraham : public Device`. -/
def Ingraham.decl : ClassDecl :=
  { name := ClassName.Ingraham
    bases := [ClassName.Device]
    ctor := some [{ ty := Ty.inventoryPtr, name := "inventory" },
                  { ty := Ty.ptr ClassName.Nisqually, name := "nisqually" }]
    methods :=
      [{ access := Access.isPublic, kind := MethodKind.static, ret := Ty.sysfsI2CBus,
         name := "getPCIeSlotI2CBus", params := [{ ty := Ty.int, name := "slot" }] },
       plugDecl,
       unplugDecl qualifiedRemoves]
    fields :=
      [{ access := Access.isPrivate, ty := Ty.array Ty.constCharPtr 12,
         name := "pcieSlotBusMap", isStatic := true },
       inventoryField Access.isPrivate,
       { access := Access.isPrivate, ty := Ty.ptr ClassName.Nisqually, name := "nisqually" }] }

/-- The two member functions of a `Platform` subclass:
`void enrollWith(PlatformManager& pm) override;` and
`void detectFrus(Notifier& notifier, Inventory* inventory) override;` -/
def platformMethods : List Method :=
  [{ access := Access.isPublic, kind := MethodKind.override, ret := Ty.void,
     name := "enrollWith", params := [{ ty := Ty.platformManagerRef, name := "pm" }] },
   { access := Access.isPublic, kind := MethodKind.override, ret := Ty.void,
     name := "detectFrus",
     params := notifierParam ++ [{ ty := Ty.inventoryPtr, name := "inventory" }] }]

/-- The declaration `class Rainier0z : public Platform`. -/
def Rainier0z.decl : ClassDecl :=
  { name := ClassName.Rainier0z, bases := [ClassName.Platform], ctor := none,
    deletedCopyMove := false, methods := platformMethods, fields := [] }

/-- The declaration `class Rainier1z : public Platform`. -/
def Rainier1z.decl : ClassDecl :=
  { name := ClassName.Rainier1z, bases := [ClassName.Platform], ctor := none,
    deletedCopyMove := false, methods := platformMethods, fields := [] }

/-- All class declarations of `rainier.hpp`, in the order of the header. -/
def rainierClasses : List ClassDecl :=
  [FlettNVMeDrive.decl, Flett.decl, WilliwakasNVMeDrive.decl, Williwakas.decl,
   Nisqually.decl, Nisqually0z.decl, Nisqually1z.decl, Ingraham.decl,
   Rainier0z.decl, Rainier1z.decl]

/-- The declaration of a class, when `rainier.hpp` has it. -/
def declOf (c : ClassName) : Option ClassDecl :=
  rainierClasses.find? (fun d => d.name = c)

/-! ### The `constexpr` tables -/

/-- The initialiser of `Williwakas::driveBackplaneBus` (`std::array<const char*, 3>`). -/
def Williwakas.driveBackplaneBus : List String :=
  ["/sys/bus/i2c/devices/i2c-13",
   "/sys/bus/i2c/devices/i2c-14",
   "/sys/bus/i2c/devices/i2c-15"]

/-- The initialiser of `Williwakas::drivePresenceMap` (`std::array<int, 8>`). -/
def Williwakas.drivePresenceMap : List Int :=
  [8, 9, 10, 11, 12, 13, 14, 15]

/-- The initialiser of `Nisqually::williwakasPresenceMap` (`std::array<int, 3>`). -/
def Nisqually.williwakasPresenceMap : List Int := [7, 6, 5]

/-- The initialiser of `Ingraham::pcieSlotBusMap` (`std::array<const char*, 12>`);
`none` is `nullptr`. -/
def Ingraham.pcieSlotBusMap : List (Option String) :=
  [some "/sys/bus/i2c/devices/i2c-4",  some "/sys/bus/i2c/devices/i2c-4",
   some "/sys/bus/i2c/devices/i2c-4",  some "/sys/bus/i2c/devices/i2c-5",
   some "/sys/bus/i2c/devices/i2c-5",  none,
   some "/sys/bus/i2c/devices/i2c-6",  some "/sys/bus/i2c/devices/i2c-6",
   some "/sys/bus/i2c/devices/i2c-6",  some "/sys/bus/i2c/devices/i2c-6",
   some "/sys/bus/i2c/devices/i2c-11", some "/sys/bus/i2c/devices/i2c-11"]

/-- The declared length of a `std::array` member of a class. -/
def arrayLength (c : ClassName) (field : String) : Option Nat :=
  match declOf c with
  | none => none
  | some d =>
    match d.fields.find? (fun f => f.name = field) with
    | some { ty := Ty.array _ n, .. } => some n
    | _ => none

/-- The sysfs path of I2C bus `n`. -/
def i2cBusPath (n : Nat) : String := "/sys/bus/i2c/devices/i2c-" ++ toString n

/-- Read a decimal number. -/
def readDecimal (cs : List Char) : Option Nat :=
  if cs.isEmpty then none
  else cs.foldlM (fun acc ch => if ch.isDigit then some (10 * acc + (ch.toNat - 48)) else none) 0

/-- The bus number named by a sysfs I2C bus path. -/
def i2cBusNumber (path : String) : Option Nat :=
  let pre := "/sys/bus/i2c/devices/i2c-".toList
  if pre.isPrefixOf path.toList then readDecimal (path.toList.drop pre.length) else none

/-! ### Default arguments of `unplug` -/

/-- The member function `name` as declared in class `c` itself. -/
def findMethod (c : ClassName) (name : String) : Option Method :=
  (declOf c).bind (fun d => d.methods.find? (fun m => m.name = name))

/-- Whether class `c` itself declares a member function `name`. -/
def declaresMethod (c : ClassName) (name : String) : Bool :=
  (findMethod c name).isSome

/-- The value of an enumerator used as a default argument.  Written `Device::NAME`, or
`NAME` alone inside a class derived from `Device`, it names the enumerator of `Device`. -/
def evalDefault (d : DefaultArg) : Option UnplugMode :=
  if d.enumerator = "UNPLUG_REMOVES_INVENTORY" then some Device.UNPLUG_REMOVES_INVENTORY
  else if d.enumerator = "UNPLUG_RETAINS_INVENTORY" then some Device.UNPLUG_RETAINS_INVENTORY
  else none

/-- The declaration that the member function name `name` refers to in class `c`: the one
`c` itself gives or, when it gives none, the first that its bases give, searched in
declaration order.  `fuel` bounds the length of the inheritance chain that is walked. -/
def lookupMethod : Nat → ClassName → String → Option Method
  | 0, _, _ => none
  | fuel + 1, c, name =>
    match declOf c with
    | none => none
    | some d =>
      match d.methods.find? (fun m => m.name = name) with
      | some m => some m
      | none => d.bases.findSome? (fun b => lookupMethod fuel b name)

/-- The default of the `mode` parameter (the second one) of the `unplug` that a call on
an object of class `c` refers to: the declaration of `c` or, when `c` declares none, the
one it inherits. -/
def unplugDefault (c : ClassName) : Option UnplugMode :=
  (lookupMethod rainierClasses.length c "unplug").bind (fun m =>
    (m.params.get? 1).bind (fun p => p.default.bind evalDefault))

/-- The arguments `unplug` receives from the call `x.unplug(notifier)` (`mode = none`) or
`x.unplug(notifier, m)` (`mode = some m`) on an `x` of class `c`: an omitted `mode` is
filled in with the default of the declaration the call refers to, that of `c` or the one
`c` inherits. -/
def unplugArgs {N : Type} (c : ClassName) (notifier : N) (mode : Option UnplugMode) :
    Option (N × UnplugMode) :=
  match mode with
  | some m => some (notifier, m)
  | none => (unplugDefault c).map (fun m => (notifier, m))

/-! ### Containment -/

/-- The device class of a connector member: `Connector<C>` or `std::array<Connector<C>, n>`. -/
def Ty.connectorOf : Ty → Option ClassName
  | Ty.connector c => some c
  | Ty.array t _ => t.connectorOf
  | _ => none

/-- The device class of a presence adaptor member: `PolledDevicePresence<C>` or an array
of them. -/
def Ty.presenceOf : Ty → Option ClassName
  | Ty.polledDevicePresence c => some c
  | Ty.array t _ => t.presenceOf
  | _ => none

/-- The number of objects a member holds: `n` for a `std::array<T, n>`, else one. -/
def Ty.multiplicity : Ty → Nat
  | Ty.array _ n => n
  | _ => 1

/-- Whether a member of this type is an object held by value (neither a pointer nor a
reference), so that it is constructed and destroyed with the object it is a member of. -/
def Ty.isValue : Ty → Bool
  | Ty.ptr _ => false
  | Ty.constPtr _ => false
  | Ty.constCharPtr => false
  | Ty.inventoryPtr => false
  | Ty.notifierRef => false
  | Ty.platformManagerRef => false
  | Ty.constStringRef => false
  | Ty.array t _ => t.isValue
  | _ => true

/-- The classes that have a member of type `Connector<t>` (single or in an array). -/
def connectorOwners (t : ClassName) : List ClassName :=
  (rainierClasses.filter (fun d => d.fields.any (fun f => f.ty.connectorOf = some t))).map
    (fun d => d.name)

/-- The `Connector<t>` members of class `c`. -/
def connectorFields (c t : ClassName) : List Field :=
  match declOf c with
  | none => []
  | some d => d.fields.filter (fun f => f.ty.connectorOf = some t)

/-- The `PolledDevicePresence<t>` members of class `c`. -/
def presenceFields (c t : ClassName) : List Field :=
  match declOf c with
  | none => []
  | some d => d.fields.filter (fun f => f.ty.presenceOf = some t)

/-- The number of objects held by a list of members. -/
def heldCount (fs : List Field) : Nat :=
  (fs.map (fun f => f.ty.multiplicity)).sum

/-- The members among `fs` that have an element at index `i`. -/
def fieldsAt (fs : List Field) (i : Nat) : List Field :=
  fs.filter (fun f => decide (i < f.ty.multiplicity))

/-- The slots of a device of class `c`: one for each `Connector` it holds, given by the
class of the device the connector takes and the index of the connector in its array. -/
def slotsOf (c : ClassName) : List (ClassName × Nat) :=
  match declOf c with
  | none => []
  | some d =>
    d.fields.flatMap (fun f =>
      match f.ty.connectorOf with
      | some t => (List.range f.ty.multiplicity).map (fun i => (t, i))
      | none => [])

/-- The positions of the device tree below a device of class `c`, up to depth `fuel`: a
position is the chain of slots that leads to it from `c`. -/
def positionsBelow : Nat → ClassName → List (List (ClassName × Nat))
  | 0, _ => []
  | fuel + 1, c =>
    (slotsOf c).flatMap (fun s => [s] :: (positionsBelow fuel s.1).map (fun p => s :: p))

/-- The positions of the Rainier device tree, whose root is the `Nisqually` chassis
backplane. -/
def deviceTree : List (List (ClassName × Nat)) :=
  positionsBelow rainierClasses.length ClassName.Nisqually

/-- The class of the device at a position (the root is a `Nisqually`). -/
def classAt (p : List (ClassName × Nat)) : ClassName :=
  match p.getLast? with
  | some s => s.1
  | none => ClassName.Nisqually

/-- The class of the parent of the device at a position. -/
def parentClass (p : List (ClassName × Nat)) : ClassName := classAt p.dropLast

/-- The classes of the proper ancestors of the device at a position, root first. -/
def ancestorClasses (p : List (ClassName × Nat)) : List ClassName :=
  ClassName.Nisqually :: p.dropLast.map (fun s => s.1)

/-- The drive classes. -/
def driveClasses : List ClassName :=
  [ClassName.FlettNVMeDrive, ClassName.WilliwakasNVMeDrive]

/-- The drive backplane classes. -/
def driveBackplaneClasses : List ClassName := [ClassName.Flett, ClassName.Williwakas]

/-- The backplane a drive class plugs into. -/
def backplaneOf : ClassName → Option ClassName
  | ClassName.FlettNVMeDrive => some ClassName.Flett
  | ClassName.WilliwakasNVMeDrive => some ClassName.Williwakas
  | _ => none

/-- The classes of `rainier.hpp` that declare a member function `name`. -/
def classesDeclaring (name : String) : List ClassName :=
  (rainierClasses.filter (fun d => d.methods.any (fun m => m.name = name))).map
    (fun d => d.name)

/-! ### Virtual dispatch -/

/-- The member functions class `c` declares with `override`. -/
def overridesOf (c : ClassName) : List String :=
  match declOf c with
  | none => []
  | some d => (d.methods.filter (fun m => m.kind = MethodKind.override)).map (fun m => m.name)

/-- The class whose definition of the member function `name` runs for an object of dynamic
class `c`: `c` itself when it declares the function (unless it declares it pure), else what
its bases give, searched in declaration order.  `fuel` bounds the length of the
inheritance chain that is walked; `none` means that `rainier.hpp` does not settle it. -/
def finalOverrider : Nat → ClassName → String → Option ClassName
  | 0, _, _ => none
  | fuel + 1, c, name =>
    match declOf c with
    | none => none
    | some d =>
      match d.methods.find? (fun m => m.name = name) with
      | some m => if m.kind = MethodKind.pureVirtual then none else some c
      | none => d.bases.findSome? (fun b => finalOverrider fuel b name)

/-- The two pure virtual functions of `Nisqually`, as a `Nisqually` object supplies
them: `bool isFlettPresentAt(int slot)` may read hardware and is a function of the state,
`SysfsI2CBus getFlettSlotI2CBus(int slot) const` yields a bus of type `B`. -/
structure NisquallyVirtuals (σ B : Type) where
  isFlettPresentAt : Int → σ → Bool × σ
  getFlettSlotI2CBus : Int → B

/-- The definitions of `plug` and `unplug` of each class.  They are in `rainier.cpp`,
which is not among the sources at hand, and are left arbitrary: the definition that class
`c` gives acts on the state, performs a sequence of actions of type `A`, and reaches the
subclass part of the object only through the object's virtual functions. -/
structure LifecycleDefs (σ B N A : Type) where
  plug : ClassName → NisquallyVirtuals σ B → N → σ → List A × σ
  unplug : ClassName → NisquallyVirtuals σ B → N → UnplugMode → σ → List A × σ

/-- The call `x.plug(notifier)` on an object of dynamic class `c` with virtual functions
`v`: the actions performed and the state reached. -/
def callPlug {σ B N A : Type} (defs : LifecycleDefs σ B N A) (c : ClassName)
    (v : NisquallyVirtuals σ B) (notifier : N) (s : σ) : Option (List A × σ) :=
  (finalOverrider rainierClasses.length c "plug").map (fun k => defs.plug k v notifier s)

/-- The call `x.unplug(notifier, mode)` on an object of dynamic class `c` with virtual
functions `v`: the actions performed and the state reached. -/
def callUnplug {σ B N A : Type} (defs : LifecycleDefs σ B N A) (c : ClassName)
    (v : NisquallyVirtuals σ B) (notifier : N) (mode : UnplugMode) (s : σ) :
    Option (List A × σ) :=
  (finalOverrider rainierClasses.length c "unplug").map
    (fun k => defs.unplug k v notifier mode s)

/-- The I2C bus number of PCIe slot `s` according to `Ingraham::pcieSlotBusMap`, when the
slot has a bus. -/
def Ingraham.pcieSlotBusNumber (s : Nat) : Option Nat :=
  (Ingraham.pcieSlotBusMap.get? s).bind (fun e => e.bind i2cBusNumber)

/-- Concrete virtual functions for a `Nisqually0z`, to run the dispatch on: the slots 8
and 10 hold a card, slot `n` is on bus `n + 1`. -/
def exampleVirtuals0z : NisquallyVirtuals Nat Int where
  isFlettPresentAt := fun slot s => (slot == 8 || slot == 10, s)
  getFlettSlotI2CBus := fun slot => slot + 1

/-- Concrete virtual functions for a `Nisqually1z` that answer as `exampleVirtuals0z`
does, computed another way. -/
def exampleVirtuals1z : NisquallyVirtuals Nat Int where
  isFlettPresentAt := fun slot s => (slot == 10 || slot == 8, s)
  getFlettSlotI2CBus := fun slot => 1 + slot

/-- Concrete definitions of `plug` and `unplug`: the actions are the buses of the slots
found occupied among 8 to 11, the state counts them. -/
def exampleLifecycleDefs : LifecycleDefs Nat Int Nat Int where
  plug := fun _ v _ s =>
    (([8, 9, 10, 11].filter (fun slot => (v.isFlettPresentAt slot s).1)).map
        v.getFlettSlotI2CBus,
      s + ([8, 9, 10, 11].filter (fun slot => (v.isFlettPresentAt slot s).1)).length)
  unplug := fun _ v _ mode s =>
    (([8, 9, 10, 11].filter (fun slot => (v.isFlettPresentAt slot s).1)).map
        v.getFlettSlotI2CBus,
      match mode with
      | UnplugMode.RemovesInventory => 0
      | UnplugMode.RetainsInventory => s)

/-! ## Properties of `everest.cpp` -/

section EverestProperties

variable {σ N I D M P : Type}

/-- C2 (as amended).  Every `unplug` that `Everest::detectFrus` issues carries the mode
`RetainsInventory`, none the default `RemovesInventory`; it issues at most one, on the
root device with the notifier it was given, and exactly one in a run from which it
returns.  Given that an `unplug` in `RetainsInventory` mode performs no inventory removal
and that the destruction of the root device performs none either, every inventory path
that was there at the moment `notifier.run()` returned is still there after `detectFrus`
has returned; and given that the two leave the set of inventory paths as they found it,
the set after `detectFrus` has returned equals the set at the moment `notifier.run()`
returned. -/
theorem Everest.detectFrus_retains_inventory (c : Collaborators σ N I D M P)
    (paths : σ → Finset String) (notifier : N) (inventory : I) (s : σ) :
    (∀ (d : D) (n : N),
      Call.unplug d n Device.UNPLUG_REMOVES_INVENTORY ∉
        issued (Everest.detectFrusTrace c notifier inventory s)) ∧
    ((issued (Everest.detectFrusTrace c notifier inventory s)).filter Call.isUnplug = [] ∨
      ∃ tola : D,
        (issued (Everest.detectFrusTrace c notifier inventory s)).filter Call.isUnplug =
          [Call.unplug tola notifier UnplugMode.RetainsInventory]) ∧
    (Everest.detectFrusExit c notifier inventory s = Exit.returned () →
      (∃ tola : D,
        (issued (Everest.detectFrusTrace c notifier inventory s)).filter Call.isUnplug =
          [Call.unplug tola notifier UnplugMode.RetainsInventory]) ∧
      ∃ sRun : σ,
        Event.ret (Call.run notifier) sRun ∈ Everest.detectFrusTrace c notifier inventory s) ∧
    ((∀ (d : D) (n : N) (s0 s1 : σ),
        c.unplug d n UnplugMode.RetainsInventory s0 = Outcome.returns () s1 →
          paths s0 ⊆ paths s1) →
      (∀ (d : D) (s0 s1 : σ), c.tolaDtor d s0 = Outcome.returns () s1 → paths s0 ⊆ paths s1) →
      Everest.detectFrusExit c notifier inventory s = Exit.returned () →
      ∀ sRun : σ,
        Event.ret (Call.run notifier) sRun ∈ Everest.detectFrusTrace c notifier inventory s →
          paths sRun ⊆ paths (Everest.detectFrusState c notifier inventory s)) ∧
    ((∀ (d : D) (n : N) (s0 s1 : σ),
        c.unplug d n UnplugMode.RetainsInventory s0 = Outcome.returns () s1 →
          paths s1 = paths s0) →
      (∀ (d : D) (s0 s1 : σ), c.tolaDtor d s0 = Outcome.returns () s1 → paths s1 = paths s0) →
      Everest.detectFrusExit c notifier inventory s = Exit.returned () →
      ∀ sRun : σ,
        Event.ret (Call.run notifier) sRun ∈ Everest.detectFrusTrace c notifier inventory s →
          paths (Everest.detectFrusState c notifier inventory s) = paths sRun) := by
  unfold Everest.detectFrusTrace Everest.detectFrusExit Everest.detectFrusState
    Everest.detectFrus
  simp only [bind, Prog.andThen, attempt, withLocal, Device.UNPLUG_RETAINS_INVENTORY,
    Device.UNPLUG_REMOVES_INVENTORY]
  rcases h0 : c.tolaCtor inventory s with ⟨tola, s0⟩ | s0 | _
  · rcases h1 : c.plug tola notifier s0 with ⟨_, s1⟩ | s1 | _
    · rcases h2 : c.run notifier s1 with ⟨_, s2⟩ | s2 | _
      · rcases h3 : c.unplug tola notifier UnplugMode.RetainsInventory s2 with
          ⟨_, s3⟩ | s3 | _
        · rcases h4 : c.tolaDtor tola s3 with ⟨_, s4⟩ | s4 | _
          · simp [h1, h2, h3, h4, issued, Call.isUnplug]
            exact ⟨fun hU hD => (hU _ _ _ _ h3).trans (hD _ _ _ h4),
              fun hU hD => (hD _ _ _ h4).trans (hU _ _ _ _ h3)⟩
          · simp [h1, h2, h3, h4, issued, Call.isUnplug]
          · simp [h1, h2, h3, h4, issued, Call.isUnplug]
        · rcases h4 : c.tolaDtor tola s3 with ⟨_, s4⟩ | s4 | _ <;>
            simp [h1, h2, h3, h4, issued, Call.isUnplug]
        · simp [h1, h2, h3, issued, Call.isUnplug]
      · rcases h4 : c.tolaDtor tola s2 with ⟨_, s4⟩ | s4 | _ <;>
          simp [h1, h2, h4, issued, Call.isUnplug]
      · simp [h1, h2, issued, Call.isUnplug]
    · rcases h4 : c.tolaDtor tola s1 with ⟨_, s4⟩ | s4 | _ <;>
        simp [h1, h4, issued, Call.isUnplug]
    · simp [h1, issued, Call.isUnplug]
  · simp [issued, Call.isUnplug]
  · simp [issued, Call.isUnplug]

/-- C3.  For every platform manager and behaviour of the collaborators,
`Everest::enrollWith` performs exactly one call, `enrollPlatform` with the name
`"Everest"` and the receiving object itself as the platform; it enrolls nothing else and
issues no `plug`, `run` or `unplug`. -/
theorem Everest.enrollWith_enrolls_once (c : Collaborators σ N I D M P) (this : P) (pm : M)
    (s : σ) :
    Everest.enrollWithTrace c this pm s =
      [Event.call (Call.enrollPlatform pm "Everest" this),
       Event.ret (Call.enrollPlatform pm "Everest" this)
         (c.enrollPlatform pm "Everest" this s)] ∧
    issued (Everest.enrollWithTrace c this pm s) = [Call.enrollPlatform pm "Everest" this] ∧
    (issued (Everest.enrollWithTrace c this pm s)).filter Call.isLifecycle = [] := by
  refine ⟨?_, ?_, ?_⟩ <;>
    simp [Everest.enrollWithTrace, Everest.enrollWith, perform, effect, StateT.run, issued,
      Call.isLifecycle]

end EverestProperties

/-- The claim C2 as first stated fails.  An `unplug` that retains the inventory and
removes no record, but writes one of its own, leaves a set of inventory paths that is not
the set at the moment `run()` returned.  So does a run in which `unplug` leaves the
inventory alone and the destruction of the root device, which follows it before
`detectFrus` returns, deletes the records. -/
theorem Everest.detectFrus_retains_inventory_counterexample :
    ((∀ (d n : Nat) (s0 s1 : List String),
        unplugAddsCollaborators.unplug d n UnplugMode.RetainsInventory s0
            = Outcome.returns () s1 →
          s0.toFinset ⊆ s1.toFinset) ∧
      Everest.detectFrusExit unplugAddsCollaborators 7 3 [] = Exit.returned () ∧
      Event.ret (Call.run 7)
          ["/system/chassis/motherboard", "/system/chassis/motherboard/drive0"] ∈
        Everest.detectFrusTrace unplugAddsCollaborators 7 3 [] ∧
      Everest.detectFrusState unplugAddsCollaborators 7 3 [] =
        ["/system/chassis/motherboard", "/system/chassis/motherboard/drive0",
         "/system/chassis/shutdown"] ∧
      (Everest.detectFrusState unplugAddsCollaborators 7 3 []).toFinset ≠
        ["/system/chassis/motherboard", "/system/chassis/motherboard/drive0"].toFinset) ∧
    ((∀ (d n : Nat) (s0 s1 : List String),
        dtorRemovesCollaborators.unplug d n UnplugMode.RetainsInventory s0
            = Outcome.returns () s1 →
          s0.toFinset ⊆ s1.toFinset) ∧
      Everest.detectFrusExit dtorRemovesCollaborators 7 3 [] = Exit.returned () ∧
      Event.ret (Call.run 7)
          ["/system/chassis/motherboard", "/system/chassis/motherboard/drive0"] ∈
        Everest.detectFrusTrace dtorRemovesCollaborators 7 3 [] ∧
      Everest.detectFrusState dtorRemovesCollaborators 7 3 [] = [] ∧
      (Everest.detectFrusState dtorRemovesCollaborators 7 3 []).toFinset ≠
        ["/system/chassis/motherboard", "/system/chassis/motherboard/drive0"].toFinset) := by
  refine ⟨⟨?_, by decide, by decide, by decide, by decide⟩,
    ⟨?_, by decide, by decide, by decide, by decide⟩⟩
  · intro d n s0 s1 h
    have h1 : s1 = s0 ++ ["/system/chassis/shutdown"] := by
      simpa [unplugAddsCollaborators, exampleCollaborators, eq_comm] using h
    subst h1
    intro x hx
    simp only [List.mem_toFinset, List.mem_append] at hx ⊢
    exact Or.inl hx
  · intro d n s0 s1 h
    have h1 : s1 = s0 := by
      simpa [dtorRemovesCollaborators, exampleCollaborators, eq_comm] using h
    subst h1
    exact Finset.Subset.refl _

/-- The theorem `Everest.detectFrus_retains_inventory` at collaborators whose `unplug`
in `RetainsInventory` mode and whose destructor leave the inventory as they found it:
both records are there after `detectFrus` has returned. -/
theorem Everest.detectFrus_retains_inventory_witness :
    (∀ (d n : Nat) (s0 s1 : List String),
      exampleCollaborators.unplug d n UnplugMode.RetainsInventory s0 = Outcome.returns () s1 →
        s1.toFinset = s0.toFinset) ∧
    (∀ (d : Nat) (s0 s1 : List String),
      exampleCollaborators.tolaDtor d s0 = Outcome.returns () s1 →
        s1.toFinset = s0.toFinset) ∧
    Everest.detectFrusExit exampleCollaborators 7 3 [] = Exit.returned () ∧
    Event.ret (Call.run 7)
        ["/system/chassis/motherboard", "/system/chassis/motherboard/drive0"] ∈
      Everest.detectFrusTrace exampleCollaborators 7 3 [] ∧
    (Everest.detectFrusState exampleCollaborators 7 3 []).toFinset =
      ["/system/chassis/motherboard", "/system/chassis/motherboard/drive0"].toFinset :=
  have hU : ∀ (d n : Nat) (s0 s1 : List String),
      exampleCollaborators.unplug d n UnplugMode.RetainsInventory s0 = Outcome.returns () s1 →
        s1.toFinset = s0.toFinset :=
    fun _ _ _ _ h => by
      simp only [exampleCollaborators, Outcome.returns.injEq, true_and] at h
      rw [h]
  have hD : ∀ (d : Nat) (s0 s1 : List String),
      exampleCollaborators.tolaDtor d s0 = Outcome.returns () s1 →
        s1.toFinset = s0.toFinset :=
    fun _ _ _ h => by
      simp only [exampleCollaborators, Outcome.returns.injEq, true_and] at h
      rw [h]
  ⟨hU, hD, by decide, by decide,
    (Everest.detectFrus_retains_inventory exampleCollaborators List.toFinset 7 3 []).2.2.2.2
      hU hD (by decide) _ (by decide)⟩

/-! ## Properties of `rainier.hpp` -/

/-- C4.  The classes of `rainier.hpp` that declare `unplug` are `FlettNVMeDrive`, `Flett`,
`WilliwakasNVMeDrive`, `Williwakas`, `Nisqually` and `Ingraham`; in each of the six the
default of `mode` is `UNPLUG_REMOVES_INVENTORY`, not `UNPLUG_RETAINS_INVENTORY`, so that
`unplug(notifier)` passes the same arguments as `unplug(notifier, RemovesInventory)`. -/
theorem unplug_default_removes_inventory {N : Type} (notifier : N) :
    classesDeclaring "unplug" =
      [ClassName.FlettNVMeDrive, ClassName.Flett, ClassName.WilliwakasNVMeDrive,
       ClassName.Williwakas, ClassName.Nisqually, ClassName.Ingraham] ∧
    (classesDeclaring "unplug").map unplugDefault =
      List.replicate 6 (some Device.UNPLUG_REMOVES_INVENTORY) ∧
    some Device.UNPLUG_RETAINS_INVENTORY ∉ (classesDeclaring "unplug").map unplugDefault ∧
    (classesDeclaring "unplug").map (fun c => unplugArgs c notifier none) =
      (classesDeclaring "unplug").map
        (fun c => unplugArgs c notifier (some UnplugMode.RemovesInventory)) ∧
    (classesDeclaring "unplug").map (fun c => unplugArgs c notifier none) =
      List.replicate 6 (some (notifier, UnplugMode.RemovesInventory)) := by
  have h : classesDeclaring "unplug" =
      [ClassName.FlettNVMeDrive, ClassName.Flett, ClassName.WilliwakasNVMeDrive,
       ClassName.Williwakas, ClassName.Nisqually, ClassName.Ingraham] := by decide
  have hd : (classesDeclaring "unplug").map unplugDefault =
      List.replicate 6 (some Device.UNPLUG_REMOVES_INVENTORY) := by decide
  have hF : unplugDefault ClassName.FlettNVMeDrive = some UnplugMode.RemovesInventory := by
    decide
  have hf : unplugDefault ClassName.Flett = some UnplugMode.RemovesInventory := by decide
  have hW : unplugDefault ClassName.WilliwakasNVMeDrive = some UnplugMode.RemovesInventory := by
    decide
  have hw : unplugDefault ClassName.Williwakas = some UnplugMode.RemovesInventory := by decide
  have hn : unplugDefault ClassName.Nisqually = some UnplugMode.RemovesInventory := by decide
  have hi : unplugDefault ClassName.Ingraham = some UnplugMode.RemovesInventory := by decide
  refine ⟨h, hd, by decide, ?_, ?_⟩ <;>
    simp [h, unplugArgs, hF, hf, hW, hw, hn, hi, List.replicate]

/-- The device tree has no position deeper than two: three levels of fuel give all of
it. -/
theorem positionsBelow_stable (n : Nat) :
    positionsBelow (n + 3) ClassName.Nisqually = positionsBelow 3 ClassName.Nisqually := by
  have hf : ∀ k, positionsBelow (k + 2) ClassName.Flett = positionsBelow 2 ClassName.Flett := by
    intro k
    simp [positionsBelow, List.range_succ,
      show slotsOf ClassName.FlettNVMeDrive = [] from by decide, show slotsOf ClassName.Flett =
      (List.range 8).map (fun i => (ClassName.FlettNVMeDrive, i)) from by decide]
  have hw : ∀ k, positionsBelow (k + 2) ClassName.Williwakas
      = positionsBelow 2 ClassName.Williwakas := by
    intro k
    simp [positionsBelow, List.range_succ,
      show slotsOf ClassName.WilliwakasNVMeDrive = [] from by decide, show slotsOf ClassName.Williwakas =
      (List.range 8).map (fun i => (ClassName.WilliwakasNVMeDrive, i)) from by decide]
  have hs : slotsOf ClassName.Nisqually =
      (List.range 4).map (fun i => (ClassName.Flett, i)) ++
      (List.range 3).map (fun i => (ClassName.Williwakas, i)) := by decide
  show (slotsOf ClassName.Nisqually).flatMap _ = (slotsOf ClassName.Nisqually).flatMap _
  rw [hs]
  simp [List.range_succ, hf, hw]

/-- C5.  The Rainier device tree mirrors physical containment.  The only class with
`Connector<FlettNVMeDrive>` members is `Flett`, the only one with
`Connector<WilliwakasNVMeDrive>` members is `Williwakas`, and the only one with
`Connector<Flett>` or `Connector<Williwakas>` members is the chassis root `Nisqually`.  So
in the tree that the connectors span below a `Nisqually`, every drive has exactly one
drive backplane among its ancestors, its parent, of the class that goes with the drive;
and every drive backplane has the `Nisqually` root as its parent. -/
theorem containment_mirrors_topology :
    connectorOwners ClassName.FlettNVMeDrive = [ClassName.Flett] ∧
    connectorOwners ClassName.WilliwakasNVMeDrive = [ClassName.Williwakas] ∧
    connectorOwners ClassName.Flett = [ClassName.Nisqually] ∧
    connectorOwners ClassName.Williwakas = [ClassName.Nisqually] ∧
    deviceTree.all (fun p =>
      if classAt p ∈ driveClasses then
        (ancestorClasses p).filter (fun a => decide (a ∈ driveBackplaneClasses))
            = (backplaneOf (classAt p)).toList
          ∧ backplaneOf (classAt p) = some (parentClass p)
          ∧ ancestorClasses p = [ClassName.Nisqually, parentClass p]
      else
        classAt p ∈ driveBackplaneClasses ∧ p.length = 1
          ∧ parentClass p = ClassName.Nisqually
          ∧ ancestorClasses p = [ClassName.Nisqually]) = true ∧
    (deviceTree.map classAt).dedup =
      [ClassName.Flett, ClassName.FlettNVMeDrive, ClassName.Williwakas,
       ClassName.WilliwakasNVMeDrive] ∧
    deviceTree.length = 4 * (1 + 8) + 3 * (1 + 8) ∧
    deviceTree.Nodup ∧
    (∀ n : Nat, positionsBelow (n + 3) ClassName.Nisqually = deviceTree) := by
  refine ⟨by decide, by decide, by decide, by decide, by decide, by decide, by decide,
    by decide, ?_⟩
  intro n
  rw [positionsBelow_stable]
  decide

/-- The connector and presence adaptor members of the two drive backplanes. -/
theorem drive_backplane_members :
    connectorFields ClassName.Flett ClassName.FlettNVMeDrive =
      [{ access := Access.isPrivate, name := "driveConnectors",
         ty := Ty.array (Ty.connector ClassName.FlettNVMeDrive) 8 }] ∧
    presenceFields ClassName.Flett ClassName.FlettNVMeDrive =
      [{ access := Access.isPrivate, name := "presenceAdaptors",
         ty := Ty.array (Ty.polledDevicePresence ClassName.FlettNVMeDrive) 8 }] ∧
    connectorFields ClassName.Williwakas ClassName.WilliwakasNVMeDrive =
      [{ access := Access.isPrivate, name := "driveConnectors",
         ty := Ty.array (Ty.connector ClassName.WilliwakasNVMeDrive) 8 }] ∧
    presenceFields ClassName.Williwakas ClassName.WilliwakasNVMeDrive =
      [{ access := Access.isPrivate, name := "presenceAdaptors",
         ty := Ty.array (Ty.polledDevicePresence ClassName.WilliwakasNVMeDrive) 8 }] := by
  decide

/-- A single array member of length `n` has exactly one element at every index below `n`
and none from `n` on. -/
theorem fieldsAt_single (f : Field) (i : Nat) :
    (fieldsAt [f] i).length = if i < f.ty.multiplicity then 1 else 0 := by
  by_cases h : i < f.ty.multiplicity <;> simp [fieldsAt, h]

/-- C6.  In both drive backplanes (`Flett` with `FlettNVMeDrive`, `Williwakas` with
`WilliwakasNVMeDrive`) the presence adaptors correspond one-to-one to the drive
connectors: the backplane holds exactly 8 `Connector`s and exactly 8
`PolledDevicePresence` adaptors, all of its own drive type and of no other; every slot
index below 8 has exactly one connector and exactly one adaptor, and no index from 8 on has
either; and both arrays are non-static members held by value, constructed and destroyed
with the backplane. -/
theorem drive_slots_paired :
    [(ClassName.Flett, ClassName.FlettNVMeDrive),
     (ClassName.Williwakas, ClassName.WilliwakasNVMeDrive)].Forall (fun bd =>
      heldCount (connectorFields bd.1 bd.2) = 8 ∧
      heldCount (presenceFields bd.1 bd.2) = 8 ∧
      (∀ t : ClassName,
        (connectorFields bd.1 t ≠ [] ∨ presenceFields bd.1 t ≠ []) ↔ t = bd.2) ∧
      (∀ i : Nat,
        (fieldsAt (connectorFields bd.1 bd.2) i).length = (if i < 8 then 1 else 0) ∧
        (fieldsAt (presenceFields bd.1 bd.2) i).length = (if i < 8 then 1 else 0)) ∧
      (connectorFields bd.1 bd.2 ++ presenceFields bd.1 bd.2).all
        (fun f => !f.isStatic && f.ty.isValue) = true) := by
  obtain ⟨h1, h2, h3, h4⟩ := drive_backplane_members
  simp only [List.Forall]
  refine ⟨⟨by decide, by decide, by decide, ?_, by decide⟩,
    ⟨by decide, by decide, by decide, ?_, by decide⟩⟩
  · intro i
    rw [h1, h2]
    exact ⟨fieldsAt_single _ i, fieldsAt_single _ i⟩
  · intro i
    rw [h3, h4]
    exact ⟨fieldsAt_single _ i, fieldsAt_single _ i⟩

/-- C7.  `Nisqually0z` and `Nisqually1z` each override exactly `getFlettSlotI2CBus` and
`isFlettPresentAt`; neither declares `plug`, `unplug`, `getInventoryPath`,
`addToInventory` or `removeFromInventory`, for each of which an object of either class
runs the definition of `Nisqually`.  So, whatever those definitions are, a `Nisqually0z`
and a `Nisqually1z` whose `isFlettPresentAt` and `getFlettSlotI2CBus` agree on every slot
perform the same sequence of actions, and reach the same state, on `plug` and on
`unplug`. -/
theorem nisqually_generations_share_lifecycle :
    overridesOf ClassName.Nisqually0z = ["getFlettSlotI2CBus", "isFlettPresentAt"] ∧
    overridesOf ClassName.Nisqually1z = ["getFlettSlotI2CBus", "isFlettPresentAt"] ∧
    ["plug", "unplug", "getInventoryPath", "addToInventory", "removeFromInventory"].all
      (fun m =>
        !declaresMethod ClassName.Nisqually0z m && !declaresMethod ClassName.Nisqually1z m &&
        (finalOverrider rainierClasses.length ClassName.Nisqually0z m
          == some ClassName.Nisqually) &&
        (finalOverrider rainierClasses.length ClassName.Nisqually1z m
          == some ClassName.Nisqually)) = true ∧
    ["getFlettSlotI2CBus", "isFlettPresentAt"].all
      (fun m =>
        (finalOverrider rainierClasses.length ClassName.Nisqually0z m
          == some ClassName.Nisqually0z) &&
        (finalOverrider rainierClasses.length ClassName.Nisqually1z m
          == some ClassName.Nisqually1z)) = true ∧
    ∀ (σ B N A : Type) (defs : LifecycleDefs σ B N A) (v0 v1 : NisquallyVirtuals σ B),
      (∀ slot : Int, v0.isFlettPresentAt slot = v1.isFlettPresentAt slot) →
      (∀ slot : Int, v0.getFlettSlotI2CBus slot = v1.getFlettSlotI2CBus slot) →
      ∀ (notifier : N) (s : σ),
        callPlug defs ClassName.Nisqually0z v0 notifier s =
          callPlug defs ClassName.Nisqually1z v1 notifier s ∧
        callPlug defs ClassName.Nisqually0z v0 notifier s =
          some (defs.plug ClassName.Nisqually v0 notifier s) ∧
        ∀ mode : UnplugMode,
          callUnplug defs ClassName.Nisqually0z v0 notifier mode s =
            callUnplug defs ClassName.Nisqually1z v1 notifier mode s ∧
          callUnplug defs ClassName.Nisqually0z v0 notifier mode s =
            some (defs.unplug ClassName.Nisqually v0 notifier mode s) := by
  refine ⟨by decide, by decide, by decide, by decide, ?_⟩
  intro σ B N A defs v0 v1 hp hb notifier s
  have hv : v0 = v1 := by
    cases v0; cases v1
    simp only [NisquallyVirtuals.mk.injEq]
    exact ⟨funext hp, funext hb⟩
  subst hv
  have h0p : finalOverrider rainierClasses.length ClassName.Nisqually0z "plug"
      = some ClassName.Nisqually := by decide
  have h1p : finalOverrider rainierClasses.length ClassName.Nisqually1z "plug"
      = some ClassName.Nisqually := by decide
  have h0u : finalOverrider rainierClasses.length ClassName.Nisqually0z "unplug"
      = some ClassName.Nisqually := by decide
  have h1u : finalOverrider rainierClasses.length ClassName.Nisqually1z "unplug"
      = some ClassName.Nisqually := by decide
  refine ⟨?_, ?_, fun mode => ⟨?_, ?_⟩⟩ <;>
    simp [callPlug, callUnplug, h0p, h1p, h0u, h1u]

/-- The behavioural half of `nisqually_generations_share_lifecycle` at concrete virtual
functions that agree on every slot: `plug` finds the cards of slots 8 and 10 on both. -/
theorem nisqually_generations_share_lifecycle_witness :
    (∀ slot : Int,
      exampleVirtuals0z.isFlettPresentAt slot = exampleVirtuals1z.isFlettPresentAt slot) ∧
    (∀ slot : Int,
      exampleVirtuals0z.getFlettSlotI2CBus slot = exampleVirtuals1z.getFlettSlotI2CBus slot) ∧
    callPlug exampleLifecycleDefs ClassName.Nisqually0z exampleVirtuals0z 7 0 =
      callPlug exampleLifecycleDefs ClassName.Nisqually1z exampleVirtuals1z 7 0 ∧
    callPlug exampleLifecycleDefs ClassName.Nisqually0z exampleVirtuals0z 7 0 =
      some ([9, 11], 2) :=
  have hp : ∀ slot : Int,
      exampleVirtuals0z.isFlettPresentAt slot = exampleVirtuals1z.isFlettPresentAt slot :=
    fun slot => by simp [exampleVirtuals0z, exampleVirtuals1z, Bool.or_comm]
  have hb : ∀ slot : Int,
      exampleVirtuals0z.getFlettSlotI2CBus slot = exampleVirtuals1z.getFlettSlotI2CBus slot :=
    fun slot => Int.add_comm slot 1
  ⟨hp, hb,
    (nisqually_generations_share_lifecycle.2.2.2.2 Nat Int Nat Int exampleLifecycleDefs
      exampleVirtuals0z exampleVirtuals1z hp hb 7 0).1,
    by decide⟩

/-- C8.  `Williwakas::drivePresenceMap` gives every drive slot a presence line of its
own: it has 8 entries, as many as the backplane has drive connectors and GPIO lines; the
entry of drive `i` is `i + 8` for every `i` from 0 to 7, so every offset lies between 8
and 15; and no two drives share an offset. -/
theorem Williwakas.drivePresenceMap_spec :
    Williwakas.drivePresenceMap.length = 8 ∧
    arrayLength ClassName.Williwakas "drivePresenceMap" = some 8 ∧
    arrayLength ClassName.Williwakas "driveConnectors" = some 8 ∧
    arrayLength ClassName.Williwakas "lines" = some 8 ∧
    (∀ i : Fin 8, Williwakas.drivePresenceMap.get? i.val = some ((i.val : Int) + 8)) ∧
    (∀ i : Fin 8, ∃ x : Int,
      Williwakas.drivePresenceMap.get? i.val = some x ∧ 8 ≤ x ∧ x ≤ 15) ∧
    Function.Injective (fun i : Fin 8 => Williwakas.drivePresenceMap.get? i.val) ∧
    Williwakas.drivePresenceMap.Nodup := by
  refine ⟨by decide, by decide, by decide, by decide, by decide, ?_, ?_, by decide⟩
  · intro i
    refine ⟨(i.val : Int) + 8, ?_, by omega, by omega⟩
    revert i; decide
  · intro i j
    revert i j; decide

/-- C9.  The per-index Williwakas tables are total and free of collisions: `Nisqually`
has 3 Williwakas connectors, 3 presence lines and a 3-entry `williwakasPresenceMap`,
`Williwakas` a 3-entry `driveBackplaneBus`; for every index `i` from 0 to 2 the presence
line offset is `7 - i` and the drive backplane bus is `i2c-(13 + i)`; and both maps are
injective. -/
theorem williwakas_tables_spec :
    arrayLength ClassName.Nisqually "williwakasConnectors" = some 3 ∧
    arrayLength ClassName.Nisqually "williwakasPresenceLines" = some 3 ∧
    arrayLength ClassName.Nisqually "williwakasPresenceMap" = some 3 ∧
    Nisqually.williwakasPresenceMap.length = 3 ∧
    arrayLength ClassName.Williwakas "driveBackplaneBus" = some 3 ∧
    Williwakas.driveBackplaneBus.length = 3 ∧
    (∀ i : Fin 3,
      Nisqually.williwakasPresenceMap.get? i.val = some (7 - (i.val : Int)) ∧
      Williwakas.driveBackplaneBus.get? i.val = some (i2cBusPath (13 + i.val)) ∧
      (Williwakas.driveBackplaneBus.get? i.val).bind i2cBusNumber = some (13 + i.val)) ∧
    Function.Injective (fun i : Fin 3 => Nisqually.williwakasPresenceMap.get? i.val) ∧
    Function.Injective (fun i : Fin 3 => Williwakas.driveBackplaneBus.get? i.val) ∧
    Nisqually.williwakasPresenceMap.Nodup ∧
    Williwakas.driveBackplaneBus.Nodup := by
  refine ⟨by decide, by decide, by decide, by decide, by decide, by decide, by decide,
    ?_, ?_, by decide, by decide⟩
  · intro i j
    revert i j; decide
  · intro i j
    revert i j; decide

/-- C10.  `Ingraham::pcieSlotBusMap` has 12 entries and names a bus for every PCIe slot
but one: the entry of slot `s` is null exactly when `s = 5`; the other slots are on
`i2c-4` (0 to 2), `i2c-5` (3 and 4), `i2c-6` (6 to 9) and `i2c-11` (10 and 11); so over
the slots that have a bus the bus number does not decrease as the slot number grows. -/
theorem Ingraham.pcieSlotBusMap_spec :
    Ingraham.pcieSlotBusMap.length = 12 ∧
    arrayLength ClassName.Ingraham "pcieSlotBusMap" = some 12 ∧
    (∀ s : Fin 12, Ingraham.pcieSlotBusMap.get? s.val = some none ↔ s.val = 5) ∧
    (∀ s : Fin 12,
      Ingraham.pcieSlotBusMap.get? s.val =
        some (if s.val = 5 then none
          else if s.val ≤ 2 then some (i2cBusPath 4)
          else if s.val ≤ 4 then some (i2cBusPath 5)
          else if s.val ≤ 9 then some (i2cBusPath 6)
          else some (i2cBusPath 11))) ∧
    (∀ s : Fin 12,
      Ingraham.pcieSlotBusNumber s.val =
        if s.val = 5 then none
        else if s.val ≤ 2 then some 4
        else if s.val ≤ 4 then some 5
        else if s.val ≤ 9 then some 6
        else some 11) ∧
    (∀ (s t : Fin 12) (a b : Nat), s ≤ t →
      Ingraham.pcieSlotBusNumber s.val = some a →
      Ingraham.pcieSlotBusNumber t.val = some b → a ≤ b) := by
  refine ⟨by decide, by decide, by decide, by decide, by decide, ?_⟩
  have h : ∀ s t : Fin 12, s ≤ t →
      ∀ a ∈ Ingraham.pcieSlotBusNumber s.val, ∀ b ∈ Ingraham.pcieSlotBusNumber t.val,
        a ≤ b := by decide
  intro s t a b hst ha hb
  exact h s t hst a ha b hb

/-- The monotonicity in `Ingraham.pcieSlotBusMap_spec` at the slots 4 and 6, the
neighbours of the slot without a bus. -/
theorem Ingraham.pcieSlotBusMap_spec_witness :
    (4 : Fin 12) ≤ 6 ∧ Ingraham.pcieSlotBusNumber 4 = some 5 ∧
    Ingraham.pcieSlotBusNumber 6 = some 6 ∧ 5 ≤ 6 :=
  ⟨by decide, by decide, by decide,
    Ingraham.pcieSlotBusMap_spec.2.2.2.2.2 4 6 5 6 (by decide) (by decide) (by decide)⟩

end FruDetect
